import Mathlib

/-
Verification of the atest command-line translator
(src/atest/cli_translator.py) against its natural-language specification.

The Python module is shallowly embedded: every function that a claim depends
on is translated into an executable Lean definition over an explicit
environment type that stands for the external world (module-info.json
contents, filesystem predicates, the output of the spawned unix find
commands, the line typed at the interactive prompt, the option values of a
parsed XML config file, and the process-wide debug-logging flag).  Python
exceptions are modelled with an error type and Except; Python None / empty
containers are modelled with Option and explicit truthiness helpers.
-/

set_option autoImplicit false

namespace Atest

/- Reference kinds: REFERENCE_TYPE = Enum([...]) in the source. -/
inductive REFERENCE_TYPE where
  | MODULE
  | CLASS
  | QUALIFIED_CLASS
  | MODULE_CLASS
  | PACKAGE
  | MODULE_PACKAGE
  | FILE_PATH
  | INTEGRATION
  | SUITE
deriving DecidableEq, Repr

/- Exceptions that the translated code can raise.  The first five are the
module's own exception classes; the rest are Python builtin exceptions that
the code can raise implicitly (dict lookup, list indexing, int() parsing,
open(None), open() on an unreadable path, os.path.join with None). -/
inductive PyError where
  | tooManyTests (msg : String)
  | noTestFound (msg : String)
  | testWithNoModule (msg : String)
  | unregisteredModule (msg : String)
  | missingPackageName (msg : String)
  | keyError (key : String)
  | indexError
  | valueError (msg : String)
  | typeError (msg : String)
  | ioError (msg : String)
deriving DecidableEq, Repr

instance {ε α : Type} [DecidableEq ε] [DecidableEq α] :
    DecidableEq (Except ε α) := fun x y =>
  match x, y with
  | .ok a, .ok b =>
    if h : a = b then isTrue (by rw [h])
    else isFalse (by intro hc; cases hc; exact h rfl)
  | .error a, .error b =>
    if h : a = b then isTrue (by rw [h])
    else isFalse (by intro hc; cases hc; exact h rfl)
  | .ok _, .error _ => isFalse (by intro hc; cases hc)
  | .error _, .ok _ => isFalse (by intro hc; cases hc)

def PyError.is_key_error : PyError → Bool
  | .keyError _ => true
  | _ => false

/- TestInfo namedtuple: (rel_config, module_name, integrated_name, filters).
Fields hold Python-None-able values; filters is a Python set of strings. -/
structure TestInfo where
  rel_config : Option String
  module_name : Option String
  integrated_name : Option String
  filters : Option (Finset String)
deriving DecidableEq

/- One record of module-info.json.  The code only reads the keys "path" and
"installed"; a record is modelled by those two (each possibly missing, as
dict key access distinguishes missing keys from empty lists). -/
structure ModuleRecord where
  path : Option (List String)
  installed : Option (List String)
deriving DecidableEq, Repr

/- The environment: everything the translator reads from outside its own
arguments.  root_dir is os.path.realpath of the repo root.  tf_dirs and
gtf_dirs are the integration directories that __init__ derives from the
module index for the fixed TF_TARGETS / GTF_TARGETS names (their derivation
is not needed by any claim).  find_out maps a spawned find command line to
its stdout.  user_input is the line raw_input returns at the interactive
prompt.  file_lines gives the lines of a readable file (none = open fails).
xml_options gives, for a parseable config file, the value attribute of each
option element in document order (none = attribute missing).  realpath,
path_exists, isfile and isdir model the corresponding os.path calls. -/
structure Env where
  root_dir : String
  module_info : List (String × ModuleRecord)
  tf_dirs : List String
  gtf_dirs : List String
  find_out : String → String
  user_input : String
  file_lines : String → Option (List String)
  xml_options : String → List (Option String)
  realpath : String → String
  path_exists : String → Bool
  isfile : String → Bool
  isdir : String → Bool
  debug_enabled : Bool

def Env.integration_dirs (env : Env) : List String :=
  env.tf_dirs ++ env.gtf_dirs

/- MODULE_CONFIG = 'AndroidTest.xml' -/
def MODULE_CONFIG : String := "AndroidTest.xml"

/- Python character membership c in s. -/
def char_in : Char → List Char → Bool
  | _, [] => false
  | c, x :: xs => c == x || char_in c xs

/- str.split(c): split at every occurrence of c, keeping empty pieces. -/
def split_on_char : List Char → Char → List (List Char)
  | [], _ => [[]]
  | x :: xs, c =>
    match split_on_char xs c with
    | [] => [[]]
    | g :: gs => if x = c then [] :: g :: gs else (x :: g) :: gs

def py_split (s : String) (c : Char) : List String :=
  (split_on_char s.toList c).map String.mk

/- str.replace(a, b) for one-character pattern and replacement (the only
form the source uses). -/
def replace_char (s : String) (a b : Char) : String :=
  String.mk (s.toList.map (fun c => if c = a then b else c))

/- str.endswith(suffix). -/
def ends_with_chars (s suffix : String) : Bool :=
  let cs := s.toList
  let tl := suffix.toList
  if cs.length < tl.length then false
  else cs.drop (cs.length - tl.length) == tl

/- Python truthiness of an optional string (None and the empty string are
falsy). -/
def py_truthy_str : Option String → Bool
  | none => false
  | some s => s != ""

/- Python truthiness of an optional set (None and the empty set are falsy). -/
def py_truthy_filters : Option (Finset String) → Bool
  | none => false
  | some f => f != ∅

/- Python whitespace, as stripped by str.strip() and matched by regex \s. -/
def is_py_space (c : Char) : Bool :=
  c == ' ' || c == '\t' || c == '\n' || c == '\x0b' || c == '\x0c' || c == '\r'

/- str.strip(c): remove leading and trailing occurrences of one character. -/
def py_strip_char (s : String) (c : Char) : String :=
  String.mk (((s.toList.dropWhile (fun x => x = c)).reverse.dropWhile
    (fun x => x = c)).reverse)

/- str.strip(): remove leading and trailing whitespace. -/
def py_strip_ws (s : String) : String :=
  String.mk (((s.toList.dropWhile is_py_space).reverse.dropWhile
    is_py_space).reverse)

def digits_to_nat (cs : List Char) : Option Nat :=
  if cs = [] then none
  else if cs.all Char.isDigit then
    some (cs.foldl (fun n c => 10 * n + (c.toNat - 48)) 0)
  else none

/- Python int(str): surrounding whitespace allowed, optional sign, decimal
digits; anything else raises ValueError (modelled as none here, turned into
the error at the call site). -/
def py_int (s : String) : Option Int :=
  let t := ((s.toList.dropWhile is_py_space).reverse.dropWhile
    is_py_space).reverse
  match t with
  | '-' :: rest => (digits_to_nat rest).map (fun n => -(n : Int))
  | '+' :: rest => (digits_to_nat rest).map (fun n => (n : Int))
  | _ => (digits_to_nat t).map (fun n => (n : Int))

/- Python list indexing, including negative indices; none = IndexError. -/
def py_index (l : List String) (i : Int) : Option String :=
  let n : Int := l.length
  let j := if i < 0 then i + n else i
  if 0 ≤ j ∧ j < n then l.get? j.toNat else none

/- posixpath.split: break at the last slash; the head keeps no trailing
slashes unless it is all slashes. -/
def posix_split (p : String) : String × String :=
  let cs := p.toList
  let suff := (cs.reverse.takeWhile (fun c => c ≠ '/')).length
  let i := cs.length - suff
  let head := cs.take i
  let tail := cs.drop i
  let head2 :=
    if head ≠ [] ∧ head.any (fun c => c ≠ '/') then
      (head.reverse.dropWhile (fun c => c = '/')).reverse
    else head
  (String.mk head2, String.mk tail)

/- os.path.dirname -/
def dirname (p : String) : String := (posix_split p).1

/- posixpath.splitext: split the extension off at the last dot of the base
name, provided some non-dot character precedes it in the base name. -/
def splitext (p : String) : String × String :=
  let cs := p.toList
  let n := cs.length
  let suffNoSlash := (cs.reverse.takeWhile (fun c => c ≠ '/')).length
  let suffNoDot := (cs.reverse.takeWhile (fun c => c ≠ '.')).length
  let sepIdx : Int := (n : Int) - suffNoSlash - 1
  let dotIdx : Int := (n : Int) - suffNoDot - 1
  if sepIdx < dotIdx then
    let bstart := (sepIdx + 1).toNat
    let between := (cs.drop bstart).take (dotIdx.toNat - bstart)
    if between.any (fun c => c ≠ '.') then
      (String.mk (cs.take dotIdx.toNat), String.mk (cs.drop dotIdx.toNat))
    else (p, "")
  else (p, "")

/- posixpath.join for two components. -/
def path_join (a b : String) : String :=
  if b.toList.head? = some '/' then b
  else if a = "" ∨ a.toList.getLast? = some '/' then a ++ b
  else a ++ "/" ++ b

/- os.path.commonprefix: character-wise common prefix of a list of paths. -/
def common_pfx2 : List Char → List Char → List Char
  | x :: xs, y :: ys => if x = y then x :: common_pfx2 xs ys else []
  | _, _ => []

def common_pfx : List String → String
  | [] => ""
  | s :: rest => String.mk (rest.foldl (fun acc t => common_pfx2 acc t.toList) s.toList)

def common_count : List String → List String → Nat
  | a :: as, b :: bs => if a = b then common_count as bs + 1 else 0
  | _, _ => 0

/- os.path.relpath for already-absolute normalized arguments (the code only
calls it on realpath-ed paths under the repo root). -/
def relpath (path start : String) : String :=
  let pcomps := (py_split path '/').filter (fun s => s != "" && s != ".")
  let scomps := (py_split start '/').filter (fun s => s != "" && s != ".")
  let common := common_count pcomps scomps
  let rel := List.replicate (scomps.length - common) ".." ++ pcomps.drop common
  if rel = [] then "." else String.intercalate "/" rel

/- The three FIND_CMDS templates, with the two percent-s slots filled in. -/
def class_find_cmd (root cls : String) : String :=
  "find " ++ root ++ " -type d -name .git -prune -o -type f -name \x27" ++
    cls ++ ".java\x27 -print"

def qualified_class_find_cmd (root rel : String) : String :=
  "find " ++ root ++ " -type d -name .git -prune -o -wholename \x27*" ++
    rel ++ ".java\x27 -print"

def integration_find_cmd (root name : String) : String :=
  "find " ++ root ++ " -type d -name .git -prune -o -wholename \x27*" ++
    name ++ ".xml\x27 -print"

/- PACKAGE_RE.match(line) and group extraction.  The pattern is
backslash-s-star, the word package (re.I), backslash-s-plus, a nonempty
group of non-semicolon characters, backslash-s-star, a semicolon: the line
must open with optional whitespace and the keyword, then at least one
whitespace character, and a semicolon must follow with at least one
character (of any kind, whitespace included, by regex backtracking) between
the whitespace run and the semicolon.  The captured group runs from the end
of the whitespace run matched by backslash-s-plus to just before the first
semicolon. -/
def parse_package_line (line : String) : Option String :=
  let cs := line.toList.dropWhile is_py_space
  if (cs.take 7).map Char.toLower = "package".toList then
    let r := cs.drop 7
    let a := (r.takeWhile is_py_space).length
    match r.findIdx? (fun ch => ch = ';') with
    | some k =>
      if 1 ≤ a ∧ 2 ≤ k then
        let b := min a (k - 1)
        some (String.mk ((r.drop b).take (k - b)))
      else none
    | none => none
  else none

def first_package : List String → Option String
  | [] => none
  | line :: rest =>
    match parse_package_line line with
    | some p => some p
    | none => first_package rest

/- _get_fully_qualified_class_name.  The argument can be Python None (the
caller passes _extract_test_path's result through unchecked); open(None)
raises TypeError in Python 2, and open() of an unreadable path raises
IOError. -/
def get_fully_qualified_class_name (env : Env) (test_path : Option String) :
    Except PyError String :=
  match test_path with
  | none => .error (.typeError "coercing to Unicode: open(None)")
  | some p =>
    match env.file_lines p with
    | none => .error (.ioError p)
    | some lines =>
      match first_package lines with
      | some package =>
        let cls := (splitext (posix_split p).2).1
        .ok (package ++ "." ++ cls)
      | none => .error (.missingPackageName p)

/- INT_NAME_RE.match and the int_name group: anchored pattern dot-star,
slash res slash config slash, a greedy group, any character, then xml at
the end.  A match needs the string to end in xml and to contain the
slash-res-slash-config-slash needle with at least four characters after it;
greediness picks the last such needle occurrence, and the group runs from
after the needle to four characters before the end. -/
def sub_occurrences (cs needle : List Char) : List Nat :=
  (List.range (cs.length + 1)).filter
    (fun i => (cs.drop i).take needle.length = needle)

def int_name_match (s : String) : Option String :=
  let cs := s.toList
  let needle := "/res/config/".toList
  let n := cs.length
  if 3 ≤ n ∧ cs.drop (n - 3) = "xml".toList then
    match ((sub_occurrences cs needle).filter
        (fun i => i + needle.length + 4 ≤ n)).getLast? with
    | some i => some (String.mk ((cs.drop (i + needle.length)).take
        (n - 4 - (i + needle.length))))
    | none => none
  else none

/- Python substring containment needle in hay (the empty needle is
contained in everything, as in Python). -/
def str_in_str (needle hay : String) : Bool :=
  !(sub_occurrences hay.toList needle.toList).isEmpty

/- APK_RE.match(value): caret, one or more non-slash characters, a literal
dot, apk, dollar, case-insensitive: value has no slash, is at least five
characters, and ends with dot-apk up to case. -/
def apk_match (v : String) : Bool :=
  let cs := v.toList
  if char_in '/' cs then false
  else if cs.length < 5 then false
  else (cs.drop (cs.length - 4)).map Char.toLower == ".apk".toList

/- _extract_test_path.  Empty find output gives None.  Otherwise the output
is stripped of surrounding newlines and split; with more than one line the
code prints the candidates and blocks on raw_input for a number, then
indexes the list with it (int() failing raises ValueError, a bad index
raises IndexError).  There is no branch raising TooManyTestsFoundError. -/
def extract_test_path (env : Env) (output : String) :
    Except PyError (Option String) :=
  if output = "" then .ok none
  else
    let tests := py_split (py_strip_char output '\n') '\n'
    if 1 < tests.length then
      match py_int env.user_input with
      | none => .error (.valueError "invalid literal for int()")
      | some idx =>
        match py_index tests idx with
        | none => .error .indexError
        | some t => .ok (some t)
    else
      match tests.head? with
      | some t => .ok (some t)
      | none => .error .indexError

/- _is_equal_or_sub_dir -/
def is_equal_or_sub_dir (env : Env) (sub_dir parent_dir : String) : Bool :=
  let parent2 := env.realpath parent_dir
  let sub2 := env.realpath sub_dir
  if !env.isdir sub2 || !env.isdir parent2 then false
  else common_pfx [sub2, parent2] == parent2

/- _find_parent_module_dir.  The while loop walks dirname-wise up to the
root.  It is given fuel bounded by the path length: every dirname step on a
path below the root strictly shortens it; the zero-fuel branch corresponds
to the source spinning forever on a dirname fixed point that is not the
root, which no reachable configuration produces. -/
def fpmd_loop (env : Env) (start_dir : String) :
    Nat → String → Except PyError String
  | 0, cur => .error (.valueError ("dirname fixed point below root: " ++ cur))
  | fuel + 1, cur =>
    if cur = env.root_dir then
      .error (.testWithNoModule ("No Parent Module Dir for: " ++ start_dir))
    else if env.isfile (path_join cur MODULE_CONFIG) then
      .ok (relpath cur env.root_dir)
    else fpmd_loop env start_dir fuel (dirname cur)

def find_parent_module_dir (env : Env) (start_dir : String) :
    Except PyError String :=
  if !is_equal_or_sub_dir env start_dir env.root_dir then
    .error (.valueError (start_dir ++ " not in repo " ++ env.root_dir))
  else fpmd_loop env start_dir (start_dir.length + 2) start_dir

/- module_info.get(name): Python dict lookup, keys unique. -/
def lookup_module (mi : List (String × ModuleRecord)) (name : String) :
    Option ModuleRecord :=
  (mi.find? (fun p => p.1 == name)).map Prod.snd

/- _get_module_name iterates the module index in its (fixed but arbitrary)
dict order, modelled as the list order.  Note info.get(path, []) followed
by [0]: a record with no path key or an empty path list raises IndexError
as soon as it is reached, even when its path would not match. -/
def get_module_name_loop (rel_module_path : String) :
    List (String × ModuleRecord) → Except PyError String
  | [] => .error (.unregisteredModule
      (rel_module_path ++ " not in module-info.json"))
  | (name, info) :: rest =>
    match (info.path.getD []).head? with
    | none => .error .indexError
    | some p0 =>
      if rel_module_path = p0 ∧ ¬(info.installed.getD []).isEmpty then
        .ok name
      else get_module_name_loop rel_module_path rest

def get_module_name (env : Env) (rel_module_path : String) :
    Except PyError String :=
  get_module_name_loop rel_module_path env.module_info

/- _find_test_by_module_name.  The truthiness test if info checks that the
looked-up dict is nonempty; records are modelled by the two keys the code
reads, so a present record is truthy when either key is present.  Then
info.get(installed) must be a nonempty list, and info[path][0] can raise
KeyError (missing key) or IndexError (empty list). -/
def find_test_by_module_name (env : Env) (module_name : String) :
    Except PyError (Option TestInfo) :=
  match lookup_module env.module_info module_name with
  | none => .ok none
  | some info =>
    if (info.path.isSome || info.installed.isSome) &&
        !(info.installed.getD []).isEmpty then
      match info.path with
      | none => .error (.keyError "path")
      | some [] => .error .indexError
      | some (p0 :: _) =>
        .ok (some ⟨some (path_join p0 MODULE_CONFIG), some module_name,
          none, none⟩)
    else .ok none

/- _find_test_by_class_name.  Faithful to the source order: the fully
qualified class name is computed from _extract_test_path's result BEFORE
the emptiness guard if not test_path, so a zero-hit search reaches
open(None) and raises instead of returning None; the guard below it is
dead code. -/
def find_test_by_class_name (env : Env) (class_name : String) :
    Except PyError (Option TestInfo) :=
  let find_cmd :=
    if char_in '.' class_name.toList then
      qualified_class_find_cmd env.root_dir (replace_char class_name '.' '/')
    else class_find_cmd env.root_dir class_name
  match extract_test_path env (env.find_out find_cmd) with
  | .error e => .error e
  | .ok test_path =>
    match get_fully_qualified_class_name env test_path with
    | .error e => .error e
    | .ok full_class_name =>
      if !py_truthy_str test_path then .ok none
      else
        match test_path with
        | none => .ok none
        | some tp =>
          let test_dir := dirname tp
          match find_parent_module_dir env test_dir with
          | .error e => .error e
          | .ok rel_module_dir =>
            let rel_config := path_join rel_module_dir MODULE_CONFIG
            match get_module_name env rel_module_dir with
            | .error e => .error e
            | .ok module_name =>
              .ok (some ⟨some rel_config, some module_name, none,
                some {full_class_name}⟩)

/- _find_test_by_integration_name: loop over the integration dirs; inside a
dir with a (truthy) hit, mismatch of the derived name against the requested
one logs a did-you-mean warning and returns None rather than raising. -/
def ftbin_loop (env : Env) (name : String) :
    List String → Except PyError (Option TestInfo)
  | [] => .ok none
  | d :: rest =>
    let abs_path := path_join env.root_dir d
    match extract_test_path env
        (env.find_out (integration_find_cmd abs_path name)) with
    | .error e => .error e
    | .ok test_file =>
      match test_file with
      | none => ftbin_loop env name rest
      | some tf =>
        if tf = "" then ftbin_loop env name rest
        else
          match int_name_match tf with
          | none => .ok none
          | some int_name =>
            if int_name = name then
              .ok (some ⟨some (relpath tf env.root_dir), none, some name,
                none⟩)
            else .ok none

def find_test_by_integration_name (env : Env) (name : String) :
    Except PyError (Option TestInfo) :=
  ftbin_loop env name env.integration_dirs

/- _find_test_by_path -/
def find_test_by_path (env : Env) (path0 : String) :
    Except PyError (Option TestInfo) :=
  let path := env.realpath path0
  if !env.path_exists path then .ok none
  else
    let dir_path := if env.isfile path then (posix_split path).1 else path
    let file_name : Option String :=
      if env.isfile path then some (posix_split path).2 else none
    let int_dir := (env.integration_dirs.map (path_join env.root_dir)).find?
      (fun d => is_equal_or_sub_dir env dir_path d)
    match int_dir with
    | some _ =>
      if !py_truthy_str file_name then .ok none
      else
        let rel_config := relpath path env.root_dir
        match int_name_match rel_config with
        | none => .ok none
        | some int_name =>
          .ok (some ⟨some rel_config, none, some int_name, none⟩)
    | none =>
      match find_parent_module_dir env dir_path with
      | .error e => .error e
      | .ok rel_module_dir =>
        if rel_module_dir = "" then .ok none
        else
          match get_module_name env rel_module_dir with
          | .error e => .error e
          | .ok module_name =>
            let rel_config := path_join rel_module_dir MODULE_CONFIG
            match file_name with
            | some fn =>
              if ends_with_chars fn ".java" then
                match get_fully_qualified_class_name env (some path) with
                | .error e => .error e
                | .ok class_name =>
                  .ok (some ⟨some rel_config, some module_name, none,
                    some {class_name}⟩)
              else .ok (some ⟨some rel_config, some module_name, none, none⟩)
            | none => .ok (some ⟨some rel_config, some module_name, none, none⟩)

/- _get_test_reference_types: the pure lexical classifier. -/
def get_test_reference_types (ref : String) : List REFERENCE_TYPE :=
  let cs := ref.toList
  if cs.head? = some '.' then [.FILE_PATH]
  else if char_in '/' cs then
    if cs.head? = some '/' ∨ char_in '.' cs then [.FILE_PATH]
    else [.FILE_PATH, .INTEGRATION]
  else if char_in ':' cs then
    if char_in '.' cs then [.MODULE_CLASS, .MODULE_PACKAGE]
    else [.MODULE_CLASS]
  else if char_in '.' cs then [.FILE_PATH, .QUALIFIED_CLASS, .PACKAGE]
  else [.INTEGRATION, .MODULE, .CLASS]

/- itertools.groupby(test_infos, lambda x: x.module_name): consecutive
elements with equal keys form one group; equal keys separated by a
different key give separate groups. -/
def groupby_module : List TestInfo → List (Option String × List TestInfo)
  | [] => []
  | ti :: rest =>
    match groupby_module rest with
    | [] => [(ti.module_name, [ti])]
    | (k, g) :: gs =>
      if k = ti.module_name then (k, ti :: g) :: gs
      else (ti.module_name, [ti]) :: (k, g) :: gs

/- The inner merge loop of _flatten_by_module: rel_config tracks the last
member seen; a member with falsy filters (None or empty set) sets the
merged filters to None and breaks. -/
def merge_group_loop :
    List TestInfo → Option String → Finset String →
      Option String × Option (Finset String)
  | [], rel_config, filters => (rel_config, some filters)
  | ti :: rest, _, filters =>
    let rel_config := ti.rel_config
    match ti.filters with
    | none => (rel_config, none)
    | some f =>
      if f = ∅ then (rel_config, none)
      else merge_group_loop rest rel_config (filters ∪ f)

/- _flatten_by_module -/
def flatten_by_module (test_infos : List TestInfo) : List TestInfo :=
  (groupby_module test_infos).flatMap fun g =>
    match g with
    | (none, group) => group
    | (some m, group) =>
      let rf := merge_group_loop group none ∅
      [⟨rf.1, some m, none, rf.2⟩]

/- _get_targets_from_xml, given the option elements of the parsed file: an
option element without a value attribute raises KeyError; a (stripped)
value matching APK_RE contributes the value minus its four-character
suffix. -/
def targets_from_options (acc : Finset String) :
    List (Option String) → Except PyError (Finset String)
  | [] => .ok acc
  | none :: _ => .error (.keyError "value")
  | some v :: rest =>
    let v2 := py_strip_ws v
    targets_from_options
      (if apk_match v2 then
        insert (String.mk (v2.toList.take (v2.toList.length - 4))) acc
      else acc) rest

def get_targets_from_xml (env : Env) (xml_file : String) :
    Except PyError (Finset String) :=
  targets_from_options ∅ (env.xml_options xml_file)

/- _parse_build_targets.  The umbrella branch tests whether the
character-wise common prefix of gtf_dirs occurs as a substring of
rel_config; the modules-in target hyphenates the config directory. -/
def parse_build_targets (env : Env) (test_info : TestInfo) :
    Except PyError (Finset String) :=
  match test_info.rel_config with
  | none => .error (.typeError "os.path.join with None")
  | some rel_config =>
    let config_file := path_join env.root_dir rel_config
    match get_targets_from_xml env config_file with
    | .error e => .error e
    | .ok targets0 =>
      let targets1 :=
        if str_in_str (common_pfx env.gtf_dirs) rel_config then
          insert "google-tradefed-all" targets0
        else insert "tradefed-all" targets0
      if py_truthy_str test_info.module_name then
        .ok (insert ("MODULES-IN-" ++ replace_char (dirname rel_config) '/' '-')
          targets1)
      else .ok targets1

/- _generate_build_targets -/
def generate_build_targets (env : Env) :
    List TestInfo → Except PyError (Finset String)
  | [] => .ok ∅
  | ti :: rest =>
    match parse_build_targets env ti with
    | .error e => .error e
    | .ok ts =>
      match generate_build_targets env rest with
      | .error e => .error e
      | .ok acc => .ok (ts ∪ acc)

/- TestInfo.paramify.  The source joins the filter set in Python set
iteration order, which is unspecified; it is modelled canonically as the
sorted order (no claim depends on it).  A None module_name is rendered as
the empty string; the source would instead fail later when joining the
argument list, a configuration no successful resolution produces. -/
def paramify (ti : TestInfo) : String :=
  if py_truthy_str ti.integrated_name then ti.integrated_name.getD ""
  else if py_truthy_filters ti.filters then
    (ti.module_name.getD "") ++ ":" ++
      String.intercalate "," ((ti.filters.getD ∅).sort (· ≤ ·))
  else ti.module_name.getD ""

/- RUN_CMD with its single percent-s slot filled in. -/
def mk_run_command (args : String) : String :=
  "atest_tradefed.sh run commandAndExit template/local_min " ++
    "--template:map test=atest " ++ args

/- _generate_run_commands -/
def generate_run_commands (env : Env) (test_infos : List TestInfo) :
    List String :=
  let log_level := if env.debug_enabled then "VERBOSE" else "WARN"
  let args := ["--log-level", log_level] ++
    test_infos.flatMap (fun ti => ["--test-info", paramify ti])
  [mk_run_command (String.intercalate " " args)]

/- The dispatch dict ref_type_to_func_map; kinds without a handler are the
dict-lookup KeyError case of _get_test_info. -/
def ref_type_to_func_map (env : Env) (rt : REFERENCE_TYPE) :
    Option (String → Except PyError (Option TestInfo)) :=
  match rt with
  | .MODULE => some (find_test_by_module_name env)
  | .CLASS => some (find_test_by_class_name env)
  | .QUALIFIED_CLASS => some (find_test_by_class_name env)
  | .FILE_PATH => some (find_test_by_path env)
  | .INTEGRATION => some (find_test_by_integration_name env)
  | _ => none

/- _get_test_info.  The try body covers both the dict lookup and the
strategy call, and the handler catches exactly KeyError: a missing handler
AND a KeyError raised inside a strategy are both logged as unsupported and
the next candidate kind is tried; every other exception propagates. -/
def get_test_info (env : Env) (test_name : String) :
    List REFERENCE_TYPE → Except PyError (Option TestInfo)
  | [] => .ok none
  | rt :: rest =>
    match ref_type_to_func_map env rt with
    | none => get_test_info env test_name rest
    | some f =>
      match f test_name with
      | .error e =>
        if e.is_key_error then get_test_info env test_name rest
        else .error e
      | .ok none => get_test_info env test_name rest
      | .ok (some ti) => .ok (some ti)

/- The per-input loop of translate: classify, resolve, raise
NoTestFoundError on a falsy result, collect in input order. -/
def resolve_all (env : Env) : List String → Except PyError (List TestInfo)
  | [] => .ok []
  | t :: rest =>
    match get_test_info env t (get_test_reference_types t) with
    | .error e => .error e
    | .ok none => .error (.noTestFound ("No test found for: " ++ t))
    | .ok (some ti) =>
      match resolve_all env rest with
      | .error e => .error e
      | .ok more => .ok (ti :: more)

/- translate -/
def translate (env : Env) (tests : List String) :
    Except PyError (Finset String × List String) :=
  match resolve_all env tests with
  | .error e => .error e
  | .ok test_infos =>
    let test_infos2 := flatten_by_module test_infos
    match generate_build_targets env test_infos2 with
    | .error e => .error e
    | .ok build_targets =>
      .ok (build_targets, generate_run_commands env test_infos2)

/-
Concrete environments used by the witnesses and counterexamples below.
-/

/- A trivial world: empty module index, no integration dirs, every find
command prints nothing, no path exists, no file is readable. -/
def env_base : Env :=
  { root_dir := "/r"
    module_info := []
    tf_dirs := []
    gtf_dirs := []
    find_out := fun _ => ""
    user_input := ""
    file_lines := fun _ => none
    xml_options := fun _ => []
    realpath := id
    path_exists := fun _ => false
    isfile := fun _ => false
    isdir := fun _ => false
    debug_enabled := false }

/- A world where the class search for Foo prints two candidate files and
the user answers 0 at the prompt; the chosen file lives in registered
module GoodMod. -/
def env5 : Env :=
  { env_base with
    find_out := fun c => if c = class_find_cmd "/r" "Foo"
      then "/r/a/Foo.java\n/r/b/Foo.java\n" else ""
    user_input := "0"
    file_lines := fun p => if p = "/r/a/Foo.java"
      then some ["package com.ex;"] else none
    isdir := fun p => p == "/r" || p == "/r/a"
    isfile := fun p => p == "/r/a/AndroidTest.xml" || p == "/r/a/Foo.java"
    module_info := [("GoodMod", ⟨some ["a"], some ["out/g.apk"]⟩)] }

/- Same world with a single class hit, plus a malformed index record for
Foo itself: installed is present but the path key is missing, so the
MODULE strategy raises KeyError when asked about Foo. -/
def env6 : Env :=
  { env5 with
    module_info := [("GoodMod", ⟨some ["a"], some ["out/g.apk"]⟩),
                    ("Foo", ⟨none, some ["out/foo.apk"]⟩)]
    find_out := fun c => if c = class_find_cmd "/r" "Foo"
      then "/r/a/Foo.java\n" else "" }

/- An index record whose path key holds an empty list: the MODULE strategy
raises IndexError, which is not a KeyError. -/
def env6b : Env :=
  { env_base with module_info := [("Bar", ⟨some [], some ["x"]⟩)] }

/- A config file whose single option value is a path-qualified apk. -/
def env7 : Env :=
  { env_base with
    gtf_dirs := ["vendor/gts"]
    xml_options := fun p => if p = "/r/a/AndroidTest.xml"
      then [some "pkg/Foo.apk"] else [] }

def c7_descriptor : TestInfo :=
  ⟨some "a/AndroidTest.xml", some "FooMod", none, none⟩

/- An index with one module with no installed artifacts and one with an
installed artifact. -/
def env8 : Env :=
  { env_base with
    module_info := [("EmptyMod", ⟨some ["m"], some []⟩),
                    ("FullMod", ⟨some ["n"], some ["out/f.apk"]⟩)] }

/- One integration root in which searching for app finds a config whose
derived canonical name is cts/app. -/
def env9 : Env :=
  { env_base with
    tf_dirs := ["tools/tf"]
    find_out := fun c => if c = integration_find_cmd "/r/tools/tf" "app"
      then "/r/tools/tf/res/config/cts/app.xml\n" else "" }

/- The non-contiguous input for the flatten claim: two Foo descriptors
separated by a Bar descriptor. -/
def c1_input : List TestInfo :=
  [⟨some "a/AndroidTest.xml", some "Foo", none, some {"A"}⟩,
   ⟨some "b/AndroidTest.xml", some "Bar", none, some {"X"}⟩,
   ⟨some "a/AndroidTest.xml", some "Foo", none, some {"B"}⟩]

/-
Helper lemmas.
-/

theorem char_in_head {c : Char} {cs : List Char}
    (h : char_in c cs = false) : cs.head? ≠ some c := by
  intro hc
  cases cs with
  | nil => simp at hc
  | cons a l =>
    simp only [List.head?_cons, Option.some.injEq] at hc
    subst hc
    simp [char_in] at h

/-
Claims.
-/

/-- Claim C1.  The claim states that the aggregator's flatten step groups
descriptors globally by module_name, so that two descriptors for module
Foo with filters A and B always merge into one descriptor with filters
A and B.  The source uses itertools.groupby on the unsorted input, which
groups only contiguous runs: on the input Foo, Bar, Foo each group is a
singleton and the two Foo descriptors survive unmerged, contradicting both
the claim and the function docstring (one TestInfo per module).  This
theorem evaluates the code at that failing input. -/
theorem flatten_groupby_contiguous_at_failing_input :
    flatten_by_module c1_input = c1_input ∧
    ((flatten_by_module c1_input).filter
      (fun ti => ti.module_name == some "Foo")).length = 2 := by decide

/-- Claim C2.  The classifier is a pure total function whose output follows
the first-match decision table: a reference starting with a dot is exactly
FILE_PATH; a reference containing a colon and a dot but no slash and not
starting with a dot is exactly MODULE_CLASS, MODULE_PACKAGE; a reference
containing no slash, colon or dot is exactly INTEGRATION, MODULE, CLASS. -/
theorem classifier_decision_table :
    (∀ ref : String, ref.toList.head? = some '.' →
      get_test_reference_types ref = [REFERENCE_TYPE.FILE_PATH]) ∧
    (∀ ref : String, char_in ':' ref.toList = true →
      char_in '.' ref.toList = true → char_in '/' ref.toList = false →
      ref.toList.head? ≠ some '.' →
      get_test_reference_types ref =
        [REFERENCE_TYPE.MODULE_CLASS, REFERENCE_TYPE.MODULE_PACKAGE]) ∧
    (∀ ref : String, char_in '/' ref.toList = false →
      char_in ':' ref.toList = false → char_in '.' ref.toList = false →
      get_test_reference_types ref =
        [REFERENCE_TYPE.INTEGRATION, REFERENCE_TYPE.MODULE,
         REFERENCE_TYPE.CLASS]) := by
  refine ⟨fun ref h => ?_, fun ref hc hd hs hh => ?_, fun ref hs hc hd => ?_⟩
  · simp only [get_test_reference_types]
    rw [if_pos h]
  · simp only [get_test_reference_types]
    rw [if_neg hh, if_neg (by rw [hs]; exact Bool.false_ne_true),
      if_pos hc, if_pos hd]
  · have hh := char_in_head hd
    simp only [get_test_reference_types]
    rw [if_neg hh, if_neg (by rw [hs]; exact Bool.false_ne_true),
      if_neg (by rw [hc]; exact Bool.false_ne_true),
      if_neg (by rw [hd]; exact Bool.false_ne_true)]

/-- Witness for C2 at the concrete references dot-x, M colon a.b, Seq. -/
theorem classifier_decision_table_witness :
    get_test_reference_types ".x" = [REFERENCE_TYPE.FILE_PATH] ∧
    get_test_reference_types "M:a.b" =
      [REFERENCE_TYPE.MODULE_CLASS, REFERENCE_TYPE.MODULE_PACKAGE] ∧
    get_test_reference_types "Seq" =
      [REFERENCE_TYPE.INTEGRATION, REFERENCE_TYPE.MODULE,
       REFERENCE_TYPE.CLASS] :=
  ⟨classifier_decision_table.1 ".x" (by decide),
   classifier_decision_table.2.1 "M:a.b" (by decide) (by decide) (by decide)
     (by decide),
   classifier_decision_table.2.2 "Seq" (by decide) (by decide) (by decide)⟩

/-- Claim C3.  If every string before t resolves to a descriptor and every
candidate reference kind for t yields no descriptor without raising (the
lookup returns absent), then translate raises NoTestFoundError naming t,
and the whole batch fails: the error value carries no build targets and no
run commands. -/
theorem translate_raises_no_test_found (env : Env) (ts1 ts2 : List String)
    (t : String)
    (h1 : ∀ s ∈ ts1, ∃ ti,
      get_test_info env s (get_test_reference_types s) = .ok (some ti))
    (h2 : get_test_info env t (get_test_reference_types t) = .ok none) :
    translate env (ts1 ++ t :: ts2) =
      .error (.noTestFound ("No test found for: " ++ t)) := by
  have key : resolve_all env (ts1 ++ t :: ts2) =
      .error (.noTestFound ("No test found for: " ++ t)) := by
    induction ts1 with
    | nil => simp [resolve_all, h2]
    | cons s rest ih =>
      obtain ⟨ti, hti⟩ := h1 s (by simp)
      have ih2 := ih (fun x hx => h1 x (by simp [hx]))
      simp [resolve_all, hti, ih2]
  simp [translate, key]

/-- Witness for C3: in the trivial world the input foo slash bar has
candidate kinds FILE_PATH and INTEGRATION, both absent, and translate
fails with NoTestFoundError naming it. -/
theorem translate_raises_no_test_found_witness :
    translate env_base ["foo/bar"] =
      .error (.noTestFound ("No test found for: " ++ "foo/bar")) :=
  translate_raises_no_test_found env_base [] [] "foo/bar"
    (by simp) (by decide)

/-- Claim C4.  The claim states that a class-name search with zero hits
returns absent without raising.  In the source the fully qualified class
name is extracted from the search result BEFORE the emptiness guard, so a
zero-hit search passes None to open() and raises TypeError; the guard
below is dead.  This theorem evaluates the code at the failing input: the
search for Foo prints nothing, and the strategy raises instead of
returning absent. -/
theorem class_strategy_zero_hits_raises_type_error :
    find_test_by_class_name env_base "Foo" =
      .error (.typeError "coercing to Unicode: open(None)") := by decide

/-- Claim C5 counterexample.  The claim states that a class-name search
with more than one hit fails with a multiple-matches error in the default
mode rather than blocking for user input.  The code has no such mode: it
always prints the candidates, blocks on raw_input, and uses the typed
number.  In env5 the search for Foo yields two files and the user answers
0; the strategy succeeds with the first file and raises nothing, refuting
the claim at this input. -/
theorem find_class_multiple_matches_no_error :
    find_test_by_class_name env5 "Foo" =
      .ok (some ⟨some "a/AndroidTest.xml", some "GoodMod", none,
        some {"com.ex.Foo"}⟩) := by decide

/-- Claim C5 as amended.  On a multi-line find output the extraction step
unconditionally prompts and consumes the user-typed number: whenever the
input parses as an integer that indexes the candidate list, the chosen
candidate is returned and no error of any kind, in particular no
TooManyTestsFoundError, is raised. -/
theorem extract_blocks_and_uses_user_choice (env : Env) (output : String)
    (i : Int) (t : String)
    (h0 : output ≠ "")
    (h1 : 1 < (py_split (py_strip_char output '\n') '\n').length)
    (h2 : py_int env.user_input = some i)
    (h3 : py_index (py_split (py_strip_char output '\n') '\n') i = some t) :
    extract_test_path env output = .ok (some t) := by
  simp only [extract_test_path]
  rw [if_neg h0, if_pos h1, h2]
  simp [h3]

/-- Witness for the amended C5: two candidates, answer 0, first returned. -/
theorem extract_blocks_and_uses_user_choice_witness :
    extract_test_path env5 "a\nb" = .ok (some "a") :=
  extract_blocks_and_uses_user_choice env5 "a\nb" 0 "a"
    (by decide) (by decide) (by decide) (by decide)

/-- Claim C6 counterexample.  The claim states that an error raised by a
strategy is never masked by trying the next candidate kind.  The handler
in _get_test_info catches KeyError, which a strategy itself can raise: in
env6 the index record for Foo has installed artifacts but no path key, so
the MODULE strategy raises KeyError, yet the lookup proceeds to the CLASS
strategy and succeeds, masking the error. -/
theorem strategy_keyerror_masked_by_next_kind :
    find_test_by_module_name env6 "Foo" = .error (.keyError "path") ∧
    get_test_info env6 "Foo" (get_test_reference_types "Foo") =
      .ok (some ⟨some "a/AndroidTest.xml", some "GoodMod", none,
        some {"com.ex.Foo"}⟩) := by decide

/-- Claim C6 as amended.  Every error other than KeyError raised by a
strategy aborts the lookup for that input immediately; only KeyError
(indistinguishable from the unsupported-kind dict lookup failure) is
caught and lets the next candidate kind be tried. -/
theorem non_keyerror_aborts_lookup (env : Env) (name : String)
    (rt : REFERENCE_TYPE) (rest : List REFERENCE_TYPE)
    (f : String → Except PyError (Option TestInfo)) (e : PyError)
    (hf : ref_type_to_func_map env rt = some f)
    (he : f name = .error e)
    (hk : e.is_key_error = false) :
    get_test_info env name (rt :: rest) = .error e := by
  simp [get_test_info, hf, he, hk]

/-- Witness for the amended C6: the IndexError raised by the MODULE
strategy on an index record with an empty path list aborts the lookup. -/
theorem non_keyerror_aborts_lookup_witness :
    get_test_info env6b "Bar" [REFERENCE_TYPE.MODULE] =
      .error PyError.indexError :=
  non_keyerror_aborts_lookup env6b "Bar" REFERENCE_TYPE.MODULE []
    (find_test_by_module_name env6b) PyError.indexError
    rfl (by decide) rfl

/-- Claim C7.  The claim states that a config option value pkg slash
Foo.apk yields the build target Foo with the suffix stripped.  APK_RE is
anchored and rejects any value containing a slash, so the code yields no
Foo target at all: only the umbrella target and the modules-in target are
produced.  This contradicts the comment above APK_RE, which says it
matches filename.apk inside value bar slash filename.apk.  The theorem
evaluates the code at the failing input and exhibits the regex behavior. -/
theorem apk_path_value_yields_no_target :
    parse_build_targets env7 c7_descriptor =
      .ok ({"tradefed-all", "MODULES-IN-a"} : Finset String) ∧
    apk_match "pkg/Foo.apk" = false ∧
    apk_match "Foo.apk" = true := by decide

/-- Claim C8.  For a module whose index record has an empty installed list
the MODULE strategy returns absent without raising; for a record with at
least one installed artifact and a primary path, it returns a descriptor
with rel_config the primary path joined with the fixed config filename,
module_name the requested name, and no filters. -/
theorem module_strategy_installed_contract (env : Env) (name : String)
    (info : ModuleRecord)
    (hlk : lookup_module env.module_info name = some info) :
    (info.installed = some [] →
      find_test_by_module_name env name = .ok none) ∧
    (∀ a as p ps, info.installed = some (a :: as) →
      info.path = some (p :: ps) →
      find_test_by_module_name env name =
        .ok (some ⟨some (path_join p MODULE_CONFIG), some name, none,
          none⟩)) := by
  constructor
  · intro hi
    simp [find_test_by_module_name, hlk, hi]
  · intro a as p ps hi hp
    simp [find_test_by_module_name, hlk, hi, hp]

/-- Witness for C8 at a concrete index with one empty-installed module and
one installed module. -/
theorem module_strategy_installed_contract_witness :
    find_test_by_module_name env8 "EmptyMod" = .ok none ∧
    find_test_by_module_name env8 "FullMod" =
      .ok (some ⟨some (path_join "n" MODULE_CONFIG), some "FullMod", none,
        none⟩) :=
  ⟨(module_strategy_installed_contract env8 "EmptyMod"
      ⟨some ["m"], some []⟩ (by decide)).1 rfl,
   (module_strategy_installed_contract env8 "FullMod"
      ⟨some ["n"], some ["out/f.apk"]⟩ (by decide)).2
     "out/f.apk" [] "n" [] rfl rfl⟩

/-- Claim C9.  When searching the first integration root for name finds a
config file whose derived canonical integration name differs from the
requested name, the strategy returns absent (ok none, after logging a
did-you-mean hint) rather than raising, so the caller's fallback loop may
try other kinds. -/
theorem integration_name_mismatch_returns_absent (env : Env)
    (name d : String) (rest : List String) (tf m : String)
    (hd : env.integration_dirs = d :: rest)
    (hx : extract_test_path env
      (env.find_out (integration_find_cmd (path_join env.root_dir d) name)) =
        .ok (some tf))
    (htf : tf ≠ "")
    (hm : int_name_match tf = some m)
    (hne : m ≠ name) :
    find_test_by_integration_name env name = .ok none := by
  unfold find_test_by_integration_name
  rw [hd]
  simp only [ftbin_loop]
  rw [hx]
  simp [htf, hm, hne]

/-- Witness for C9: the search for app hits a file whose derived name is
cts slash app, a mismatch, and the strategy returns absent. -/
theorem integration_name_mismatch_returns_absent_witness :
    find_test_by_integration_name env9 "app" = .ok none :=
  integration_name_mismatch_returns_absent env9 "app" "tools/tf" []
    "/r/tools/tf/res/config/cts/app.xml" "cts/app"
    rfl (by decide) (by decide) (by decide) (by decide)

/-- Claim C10.  translate on an empty input list succeeds for every
environment, returning the empty build-target set and exactly one run
command that carries only the log-level flag (VERBOSE when debug logging
is enabled, WARN otherwise) and no test-info pairs. -/
theorem translate_empty_list_single_command (env : Env) :
    translate env [] =
      .ok ((∅ : Finset String),
        [mk_run_command ("--log-level " ++
          (if env.debug_enabled then "VERBOSE" else "WARN"))]) := by
  obtain ⟨rd, mi, tf, gtf, fo, ui, fl, xo, rp, pe, isf, isd, de⟩ := env
  cases de <;> rfl

end Atest
